import Mathlib

/-!
Verification of the CareGrid listings pipeline
(`scripts/python/caregrid_listings_manager.py`).

Python strings are modelled as `List Char` (`PyStr`); machine floats never
matter for the verified claims (the similarity ratio `2*M/T > 0.8` is compared
over exact rationals, equivalently `10*M > 4*T` over naturals).  Network
collaborators (geocoder, reachability check) are modelled as oracle
parameters.  All definitions are translated line by line from the source.
-/

/-- Python `str`, modelled as a list of characters. -/
abbrev PyStr := List Char

/-- Turn a Lean string literal into a modelled Python string. -/
def S (s : String) : PyStr := s.toList

/-- Python `str.lower()` (ASCII range, which covers all pipeline data). -/
def pyLowerL (s : PyStr) : PyStr := s.map Char.toLower

/-- Python `str.upper()` (ASCII range). -/
def pyUpperL (s : PyStr) : PyStr := s.map Char.toUpper

/-- Python `str.strip()`: drop leading and trailing whitespace. -/
def pyStrip (s : PyStr) : PyStr :=
  ((s.dropWhile Char.isWhitespace).reverse.dropWhile Char.isWhitespace).reverse

/-- A character is "cased" for the ASCII fragment: a letter. -/
def isCased (c : Char) : Bool := c.isAlpha

/-- Python `str.isupper()`: at least one cased character and no lowercase one. -/
def pyIsUpper (s : PyStr) : Bool :=
  s.any (fun c => isCased c) && s.all (fun c => !(c.isLower))

/-- One step of Python `str.title()`: capitalise a letter that follows a
non-cased character, lowercase a letter that follows a cased one. -/
def pyTitleGo : Bool → PyStr → PyStr
  | _, [] => []
  | prevCased, c :: rest =>
    if isCased c then
      (if prevCased then c.toLower else c.toUpper) :: pyTitleGo true rest
    else
      c :: pyTitleGo false rest

/-- Python `str.title()`. -/
def pyTitle (s : PyStr) : PyStr := pyTitleGo false s

/-- Python slicing `s[:k]` where `k` may be negative. -/
def pyTakeInt (s : PyStr) (k : Int) : PyStr :=
  if 0 ≤ k then s.take k.toNat
  else s.take (s.length - min s.length k.natAbs)

/-- Python `needle in haystack` (substring containment). -/
def hasSub (haystack needle : PyStr) : Bool :=
  match haystack with
  | [] => needle == []
  | _ :: rest => needle.isPrefixOf haystack || hasSub rest needle

/-- Python `s.startswith(p)`. -/
def leadsWith (p s : PyStr) : Bool := p.isPrefixOf s

/-- Split a list on separator characters (Python `re.split` over a class). -/
def splitPred (p : Char → Bool) (s : PyStr) : List PyStr :=
  match s with
  | [] => [[]]
  | c :: rest =>
    let r := splitPred p rest
    if p c then [] :: r
    else match r with
      | [] => [[c]]
      | h :: t => (c :: h) :: t

/-- Decimal rendering of a natural number (Python `str(n)` / f-string). -/
def natToStr (n : Nat) : PyStr := (toString n).toList

/-- Is a character valid inside a URL scheme (after the leading letter)? -/
def isSchemeChar (c : Char) : Bool :=
  c.isAlphanum || c == '+' || c == '-' || c == '.'

/-- Drop a leading `scheme:` from a URL if one is present
(`urllib.parse` accepts a letter followed by letters/digits/`+-.`). -/
def afterScheme (url : PyStr) : PyStr :=
  match url.findIdx? (fun c => c == ':') with
  | none => url
  | some i =>
    let scheme := url.take i
    match scheme with
    | [] => url
    | c0 :: rest =>
      if c0.isAlpha && rest.all isSchemeChar then url.drop (i + 1) else url

/-- `urllib.parse.urlparse(url).netloc`: present only after `"//"`, extending
to the next `/`, `?` or `#`. -/
def netloc (url : PyStr) : PyStr :=
  let rest := afterScheme url
  if leadsWith (S "//") rest then
    (rest.drop 2).takeWhile (fun c => !(c == '/' || c == '?' || c == '#'))
  else []

/-- The canonical record schema produced by `clean_record` (source lines
51-73); Python floats for coordinates are modelled opaquely as integers. -/
structure Record where
  name : PyStr
  category : PyStr
  city : PyStr
  address : PyStr
  postcode : PyStr
  phone : PyStr
  website : PyStr
  services : List PyStr
  rating : Nat
  reviewsCount : Nat
  bookingLink : PyStr
  logoUrl : PyStr
  isClaimed : Bool
  description : PyStr
  seoTitle : PyStr
  seoDescription : PyStr
  tags : List PyStr
  latitude : Option Int
  longitude : Option Int
  status : PyStr
  notes : PyStr
deriving Repr, DecidableEq

/-- The initial `cleaned` dict of `clean_record` (source lines 51-73). -/
def emptyRecord : Record where
  name := []
  category := []
  city := []
  address := []
  postcode := []
  phone := []
  website := []
  services := []
  rating := 0
  reviewsCount := 0
  bookingLink := []
  logoUrl := []
  isClaimed := false
  description := []
  seoTitle := []
  seoDescription := []
  tags := []
  latitude := none
  longitude := none
  status := S "READY"
  notes := []

/-- A raw row from the loader: key/value pairs of strings. -/
abbrev RawRecord := List (PyStr × PyStr)

/-- Python `record[k]` for a dict modelled as an association list. -/
def rawGet (r : RawRecord) (k : PyStr) : Option PyStr :=
  (r.find? (fun p => p.1 == k)).map Prod.snd

/-- Python `record.get(k, '')`. -/
def rawGetD (r : RawRecord) (k : PyStr) : PyStr := (rawGet r k).getD []

/-- Python `k in record and record[k]` (key present with truthy value). -/
def rawTruthy (r : RawRecord) (k : PyStr) : Bool :=
  match rawGet r k with
  | some v => v != []
  | none => false

/-- The five valid categories (source line 27). -/
def valid_categories : List PyStr :=
  [S "GP", S "Dentist", S "Physio", S "Aesthetics", S "Other"]

/-- Category normalisation branch of `clean_record` (source lines 84-99).
Returns the canonical category together with the note appended (if any);
`raw` is the original unstripped value used in the note. -/
def categoryClean (raw : PyStr) : PyStr × PyStr :=
  let category := pyUpperL (pyStrip raw)
  if category ∈ [S "GP", S "GENERAL PRACTICE", S "DOCTOR"] then (S "GP", [])
  else if category ∈ [S "DENTIST", S "DENTAL"] then (S "Dentist", [])
  else if category ∈ [S "PHYSIO", S "PHYSIOTHERAPY", S "PHYSIOTHERAPIST"] then
    (S "Physio", [])
  else if category ∈ [S "AESTHETICS", S "AESTHETIC", S "COSMETIC"] then
    (S "Aesthetics", [])
  else if pyTitle category ∈ valid_categories then (pyTitle category, [])
  else (S "Other", S "Category '" ++ raw ++ S "' mapped to Other. ")

/-- Phone normalisation branch of `clean_record` (source lines 110-119).
Returns the phone value and the note appended (if any); `raw` is the
original value kept when the format is unclear. -/
def phoneClean (raw : PyStr) : PyStr × PyStr :=
  let phone := raw.filter Char.isDigit
  if leadsWith (S "0") phone then (S "+44" ++ phone.drop 1, [])
  else if leadsWith (S "44") phone then (S "+" ++ phone, [])
  else if !(leadsWith (S "+44") phone) then (raw, S "Phone format unclear. ")
  else (phone, [])

/-- Website branch of `clean_record` (source lines 122-133).  Returns the
website value, the note appended (if any) and whether the status must drop
to `NEEDS_REVIEW`. -/
def websiteClean (raw : PyStr) : PyStr × PyStr × Bool :=
  let website := pyStrip raw
  let website :=
    if leadsWith (S "http://") website || leadsWith (S "https://") website
    then website else S "https://" ++ website
  let host := netloc website
  if host == [] || !(hasSub host (S ".")) then
    (website, S "Website URL appears invalid. ", true)
  else (website, [], false)

/-- `clean_record` (source lines 49-146): clean and standardise one raw row. -/
def clean_record (record : RawRecord) : Record :=
  let name :=
    if rawTruthy record (S "name") then
      let n := pyStrip (rawGetD record (S "name"))
      if !(pyIsUpper n) then pyTitle n else n
    else []
  let catPair :=
    if rawTruthy record (S "category") then
      categoryClean (rawGetD record (S "category"))
    else ([], [])
  let city :=
    if rawTruthy record (S "city") then pyTitle (pyStrip (rawGetD record (S "city")))
    else []
  let address := pyStrip (rawGetD record (S "address"))
  let postcode := pyUpperL (pyStrip (rawGetD record (S "postcode")))
  let phonePair :=
    if rawTruthy record (S "phone") then phoneClean (rawGetD record (S "phone"))
    else ([], [])
  let webTriple :=
    if rawTruthy record (S "website") then websiteClean (rawGetD record (S "website"))
    else ([], [], false)
  let services :=
    if rawTruthy record (S "services") then
      ((splitPred (fun c => c == ';' || c == ',') (rawGetD record (S "services"))).map
        pyStrip).filter (fun s => s != [])
    else []
  let bookingLink :=
    if rawTruthy record (S "bookinglink") then pyStrip (rawGetD record (S "bookinglink"))
    else []
  let logoUrl :=
    if rawTruthy record (S "logourl") then pyStrip (rawGetD record (S "logourl"))
    else []
  { emptyRecord with
    name := name
    category := catPair.1
    city := city
    address := address
    postcode := postcode
    phone := phonePair.1
    website := webTriple.1
    services := services
    bookingLink := bookingLink
    logoUrl := logoUrl
    status := if webTriple.2.2 then S "NEEDS_REVIEW" else S "READY"
    notes := catPair.2 ++ phonePair.2 ++ webTriple.2.1 }

/-- The list of missing-field labels collected by `check_required_fields`
(source lines 150-164), in source order. -/
def missingFields (record : Record) : List PyStr :=
  (if record.name = [] then [S "name"] else []) ++
  (if record.category = [] then [S "category"] else []) ++
  (if record.city = [] then [S "city"] else []) ++
  (if record.address = [] ∧ record.postcode = [] then [S "address or postcode"] else []) ++
  (if record.website = [] ∧ record.phone = [] then [S "website or phone"] else [])

/-- `check_required_fields` (source lines 148-170). -/
def check_required_fields (record : Record) : Record :=
  let missing := missingFields record
  if missing = [] then record
  else
    { record with
      status := S "BLOCKED_MISSING_DATA"
      notes := record.notes ++ S "Missing required fields: " ++
        List.intercalate (S ", ") missing ++ S ". " }

/-!  Model of `difflib.SequenceMatcher` (CPython, `isjunk=None`,
`autojunk=True`), used by `deduplicate_records` through
`SequenceMatcher(None, x, y).ratio()`.  With `isjunk=None` the junk set
`bjunk` is empty, so the two junk-extension loops of `find_longest_match`
never fire and are omitted; the non-junk extension loops are embedded. -/

/-- Append index `i` to the entry of `c` (Python `b2j.setdefault(c, []).append(i)`). -/
def addIdx (m : List (Char × List Nat)) (c : Char) (i : Nat) : List (Char × List Nat) :=
  match m with
  | [] => [(c, [i])]
  | (d, l) :: rest => if d == c then (d, l ++ [i]) :: rest else (d, l) :: addIdx rest c i

/-- `b2j` before junk purging: each character of `b` maps to its ascending
index list. -/
def b2jRaw (b : PyStr) : List (Char × List Nat) :=
  b.enum.foldl (fun m p => addIdx m p.2 p.1) []

/-- `__chain_b`: build `b2j` and, when `len(b) >= 200`, purge "popular"
elements (autojunk heuristic).  `bjunk` stays empty since `isjunk=None`. -/
def b2jChain (b : PyStr) : List (Char × List Nat) :=
  let m := b2jRaw b
  let n := b.length
  if n ≥ 200 then
    let ntest := n / 100 + 1
    m.filter (fun p => !(p.2.length > ntest))
  else m

/-- Lookup in `b2j` (Python `b2j.get(a[i], nothing)`). -/
def b2jGet (m : List (Char × List Nat)) (c : Char) : List Nat :=
  match m.find? (fun p => p.1 == c) with
  | some p => p.2
  | none => []

/-- Lookup in the `j2len` dict with default 0 (Python `j2len.get(j-1, 0)`;
a key of `-1` always misses, hence the `j = 0` case). -/
def j2lenGet (m : List (Nat × Nat)) (j : Nat) : Nat :=
  match m.find? (fun p => p.1 == j) with
  | some p => p.2
  | none => 0

/-- Inner loop of the `find_longest_match` DP for one `i`: walk the ascending
index list of `a[i]`, skipping `j < blo` (`continue`) and stopping at
`j ≥ bhi` (`break`), building `newj2len` and updating the best block. -/
def dpInner (blo bhi i : Nat) (prev : List (Nat × Nat)) :
    List Nat → List (Nat × Nat) → Nat × Nat × Nat → List (Nat × Nat) × (Nat × Nat × Nat)
  | [], new, best => (new, best)
  | j :: js, new, best =>
    if j < blo then dpInner blo bhi i prev js new best
    else if j ≥ bhi then (new, best)
    else
      let k := (if j = 0 then 0 else j2lenGet prev (j - 1)) + 1
      -- Python `i-k+1` / `j-k+1`; `k ≤ i+1` and `k ≤ j+1`, so over `Nat`
      -- this is `i+1-k` / `j+1-k`.
      let best := if k > best.2.2 then (i + 1 - k, j + 1 - k, k) else best
      dpInner blo bhi i prev js (new ++ [(j, k)]) best

/-- Outer loop of the `find_longest_match` DP over `i` in `[alo, ahi)`.
The first argument is fuel, kept equal to `ahi - i` by every caller so the
loop runs to completion; structural recursion on it lets the kernel
evaluate the definition. -/
def dpOuter (a : PyStr) (b2j : List (Char × List Nat)) (ahi blo bhi : Nat) :
    Nat → Nat → List (Nat × Nat) → Nat × Nat × Nat → Nat × Nat × Nat
  | 0, _, _, best => best
  | fuel + 1, i, prev, best =>
    if i < ahi then
      let js := b2jGet b2j (a.getD i (Char.ofNat 0))
      let (new, best) := dpInner blo bhi i prev js [] best
      dpOuter a b2j ahi blo bhi fuel (i + 1) new best
    else best

/-- Character access with distinct out-of-range defaults on each side, so a
spurious equality can never arise (the source only indexes in range). -/
def chA (s : PyStr) (i : Nat) : Char := s.getD i (Char.ofNat 0)

def chB (s : PyStr) (i : Nat) : Char := s.getD i (Char.ofNat 1)

/-- First extension loop of `find_longest_match`: grow the best block to the
left over equal (non-junk, and `bjunk` is empty) characters.  Fuel is kept
equal to `besti`, which strictly decreases and bounds the iterations. -/
def extendLeft (a b : PyStr) (alo blo : Nat) :
    Nat → Nat → Nat → Nat → Nat × Nat × Nat
  | 0, besti, bestj, bestsize => (besti, bestj, bestsize)
  | fuel + 1, besti, bestj, bestsize =>
    if besti > alo ∧ bestj > blo ∧ chA a (besti - 1) == chB b (bestj - 1) then
      extendLeft a b alo blo fuel (besti - 1) (bestj - 1) (bestsize + 1)
    else (besti, bestj, bestsize)

/-- Second extension loop of `find_longest_match`: grow the best block to the
right over equal characters.  Fuel `bhi` bounds the iterations, since
`bestj + bestsize` grows towards `bhi`. -/
def extendRight (a b : PyStr) (ahi bhi besti bestj : Nat) : Nat → Nat → Nat
  | 0, bestsize => bestsize
  | fuel + 1, bestsize =>
    if besti + bestsize < ahi ∧ bestj + bestsize < bhi ∧
        chA a (besti + bestsize) == chB b (bestj + bestsize) then
      extendRight a b ahi bhi besti bestj fuel (bestsize + 1)
    else bestsize

/-- `SequenceMatcher.find_longest_match` on `a[alo:ahi]`, `b[blo:bhi]`. -/
def find_longest_match (a b : PyStr) (b2j : List (Char × List Nat))
    (alo ahi blo bhi : Nat) : Nat × Nat × Nat :=
  let best := dpOuter a b2j ahi blo bhi (ahi - alo) alo [] (alo, blo, 0)
  let best := extendLeft a b alo blo best.1 best.1 best.2.1 best.2.2
  let bestsize := extendRight a b ahi bhi best.1 best.2.1 (bhi + 1) best.2.2
  (best.1, best.2.1, bestsize)

/-- Total number of matched elements `M` of `get_matching_blocks` (the
recursive descent of the source's explicit queue; traversal order does not
affect the sum).  Fuel bounds the recursion depth; `matches` supplies enough. -/
def matchTotal (a b : PyStr) (b2j : List (Char × List Nat)) :
    Nat → Nat → Nat → Nat → Nat → Nat
  | 0, _, _, _, _ => 0
  | fuel + 1, alo, ahi, blo, bhi =>
    let blk := find_longest_match a b b2j alo ahi blo bhi
    let i := blk.1
    let j := blk.2.1
    let k := blk.2.2
    if k = 0 then 0
    else
      k + (if alo < i ∧ blo < j then matchTotal a b b2j fuel alo i blo j else 0)
        + (if i + k < ahi ∧ j + k < bhi then matchTotal a b b2j fuel (i + k) ahi (j + k) bhi else 0)

/-- `M`: the matched total of `SequenceMatcher(None, a, b)`. -/
def smMatches (a b : PyStr) : Nat :=
  matchTotal a b (b2jChain b) (a.length + b.length + 1) 0 a.length 0 b.length

/-- `SequenceMatcher(None, a, b).ratio() > 0.8`, compared over exact
rationals: `2*M/T > 4/5` iff `10*M > 4*T`. -/
def ratioGtP8 (a b : PyStr) : Bool :=
  10 * smMatches a b > 4 * (a.length + b.length)

/-- Website-domain duplicate test of `deduplicate_records` (source lines
190-194): both websites non-empty and equal lowercased URL hosts. -/
def website_domain_duplicate (record other : Record) : Bool :=
  record.website != [] && other.website != [] &&
    pyLowerL (netloc record.website) == pyLowerL (netloc other.website)

/-- Name-similarity duplicate test of `deduplicate_records` (source lines
197-207): both names non-empty, similarity ratio above 0.8, and identical
non-empty first-four-character postcode prefixes. -/
def name_similarity_duplicate (record other : Record) : Bool :=
  record.name != [] && other.name != [] &&
    ratioGtP8 (pyLowerL record.name) (pyLowerL other.name) &&
    (record.postcode.take 4 == other.postcode.take 4 && record.postcode.take 4 != [])

/-- The full duplicate classification of one pair (source lines 187-207):
the name branch runs only when the website branch did not match. -/
def isDuplicate (record other : Record) : Bool :=
  if website_domain_duplicate record other then true
  else name_similarity_duplicate record other

/-- Falsy test for an optional coordinate (Python: `None` and `0.0` are
falsy). -/
def optFalsy (o : Option Int) : Bool :=
  match o with
  | none => true
  | some x => x == 0

/-- `if not best.get(key) and value: best[key] = value` for a string field. -/
def mergeStr (b d : PyStr) : PyStr := if b = [] ∧ d ≠ [] then d else b

/-- Same merge rule for a list-of-strings field. -/
def mergeListS (b d : List PyStr) : List PyStr := if b = [] ∧ d ≠ [] then d else b

/-- Same merge rule for a numeric field (0 is falsy). -/
def mergeNat (b d : Nat) : Nat := if b = 0 ∧ d ≠ 0 then d else b

/-- Same merge rule for a boolean field (False is falsy). -/
def mergeBool (b d : Bool) : Bool := if b = false ∧ d = true then d else b

/-- Same merge rule for an optional coordinate. -/
def mergeOpt (b d : Option Int) : Option Int :=
  if optFalsy b ∧ ¬ optFalsy d then d else b

/-- One merge of a duplicate into the base record (source lines 219-221):
every currently-falsy field of the base takes the duplicate's value when
that value is truthy.  The loop runs over all keys, `status` and `notes`
included. -/
def mergeInto (best dup : Record) : Record where
  name := mergeStr best.name dup.name
  category := mergeStr best.category dup.category
  city := mergeStr best.city dup.city
  address := mergeStr best.address dup.address
  postcode := mergeStr best.postcode dup.postcode
  phone := mergeStr best.phone dup.phone
  website := mergeStr best.website dup.website
  services := mergeListS best.services dup.services
  rating := mergeNat best.rating dup.rating
  reviewsCount := mergeNat best.reviewsCount dup.reviewsCount
  bookingLink := mergeStr best.bookingLink dup.bookingLink
  logoUrl := mergeStr best.logoUrl dup.logoUrl
  isClaimed := mergeBool best.isClaimed dup.isClaimed
  description := mergeStr best.description dup.description
  seoTitle := mergeStr best.seoTitle dup.seoTitle
  seoDescription := mergeStr best.seoDescription dup.seoDescription
  tags := mergeListS best.tags dup.tags
  latitude := mergeOpt best.latitude dup.latitude
  longitude := mergeOpt best.longitude dup.longitude
  status := mergeStr best.status dup.status
  notes := mergeStr best.notes dup.notes

/-- Mark a duplicate as merged (source lines 224-225): set
`status = MERGED_DUPLICATE` and append a note naming the record it was
merged into; every other field keeps its value. -/
def markMerged (bestName : PyStr) (dup : Record) : Record :=
  { dup with
    status := S "MERGED_DUPLICATE"
    notes := dup.notes ++ S "Merged into record: " ++ bestName ++ S ". " }

/-- The fold of source lines 216-226: merge each duplicate into the running
base (in order) and emit the marked duplicates; the note of each duplicate
names the base as it stands right after that merge. -/
def foldDups : Record → List Record → Record × List Record
  | best, [] => (best, [])
  | best, d :: ds =>
    let best1 := mergeInto best d
    let rest := foldDups best1 ds
    (rest.1, markMerged best1.name d :: rest.2)

/-- Scan for later unconsumed duplicates of `base` (source lines 183-211),
returning their indices and records in ascending index order.  Fuel is kept
equal to `records.length - j` by every caller. -/
def scanDups (records : List Record) (base : Record) :
    Nat → Nat → List Nat → List (Nat × Record)
  | 0, _, _ => []
  | fuel + 1, j, merged =>
    if h : j < records.length then
      let r := records.get ⟨j, h⟩
      if merged.contains j then scanDups records base fuel (j + 1) merged
      else if isDuplicate base r then
        (j, r) :: scanDups records base fuel (j + 1) merged
      else scanDups records base fuel (j + 1) merged
    else []

/-- The outer loop of `deduplicate_records` (source lines 177-231).  The
source mutates duplicates in place inside `records`, but every mutated index
is in `merged_indices` and is never read again, so passing the original list
onward is observationally identical. -/
def dedupGo (records : List Record) : Nat → Nat → List Nat → List Record
  | 0, _, _ => []
  | fuel + 1, i, merged =>
    if h : i < records.length then
      if merged.contains i then dedupGo records fuel (i + 1) merged
      else
        let base := records.get ⟨i, h⟩
        let dups := scanDups records base fuel (i + 1) merged
        let folded := foldDups base (dups.map Prod.snd)
        let b0 := folded.1
        let best :=
          if dups.length > 0 then
            { b0 with notes := b0.notes ++ S "Merged " ++
                natToStr dups.length ++ S " duplicate(s). " }
          else b0
        folded.2 ++ best :: dedupGo records fuel (i + 1) (merged ++ dups.map Prod.fst)
    else []

/-- `deduplicate_records` (source lines 172-233). -/
def deduplicate_records (records : List Record) : List Record :=
  dedupGo records records.length 0 []

/-- Outcome of one Google Geocoding call: a transport/parse error, or a
response with a status string and a list of result coordinates. -/
inductive GeoOutcome where
  | netError (msg : PyStr)
  | response (statusStr : PyStr) (results : List (Int × Int))
deriving Repr, DecidableEq

/-- `enrich_with_geodata` (source lines 235-272), with the API key and the
geocoding service as oracle parameters. -/
def enrich_with_geodata (apiKey : Option PyStr) (geo : PyStr → GeoOutcome)
    (record : Record) : Record :=
  match apiKey with
  | none => { record with notes := record.notes ++ S "No Google API key for geocoding. " }
  | some _ =>
    let parts :=
      (if record.address ≠ [] then [record.address] else []) ++
      (if record.city ≠ [] then [record.city] else []) ++
      (if record.postcode ≠ [] then [record.postcode] else [])
    if parts = [] then record
    else
      let address := List.intercalate (S ", ") parts ++ S ", UK"
      match geo address with
      | GeoOutcome.netError e =>
        { record with notes := record.notes ++ S "Geocoding error: " ++ e ++ S ". " }
      | GeoOutcome.response st results =>
        match results with
        | (la, lo) :: _ =>
          if st = S "OK" then { record with latitude := some la, longitude := some lo }
          else { record with notes := record.notes ++ S "Geocoding failed. " }
        | [] => { record with notes := record.notes ++ S "Geocoding failed. " }

/-- Outcome of the reachability HEAD request: a response carrying an HTTP
status code, or a raised exception. -/
inductive WebOutcome where
  | ok (status : Nat)
  | exn
deriving Repr, DecidableEq

/-- `check_website_availability` (source lines 274-297), with the network as
an oracle parameter.  Total: no failure escapes to the caller. -/
def check_website_availability (web : PyStr → WebOutcome) (record : Record) : Record :=
  if record.website = [] then record
  else if hasSub record.website (S ".example.com") then
    { record with notes := record.notes ++ S "Demo domain - website check skipped. " }
  else
    match web record.website with
    | WebOutcome.ok st =>
      if st ≥ 400 then
        let r := { record with notes := record.notes ++ S "Website unreachable. " }
        if r.status = S "READY" then { r with status := S "NEEDS_REVIEW" } else r
      else record
    | WebOutcome.exn =>
      let r := { record with notes := record.notes ++ S "Website check failed. " }
      if r.status = S "READY" then { r with status := S "NEEDS_REVIEW" } else r

/-- The description generator (source lines 306-328), as a function of the
six fields it reads. -/
def mkDescription (name category city : PyStr) (services : List PyStr)
    (website phone : PyStr) : PyStr :=
  let p1 := name ++ S " is a private " ++ pyLowerL category ++
    S " practice located in " ++ city ++ S "."
  let parts := [p1]
  let parts :=
    if services ≠ [] then
      let serviceList := List.intercalate (S ", ") (services.take 3)
      parts ++ [S "We offer " ++ serviceList ++
        (if services.length > 3 then S " and other services" else []) ++ S "."]
    else parts
  let parts := parts ++ [S "Our experienced team provides high-quality private healthcare services to patients in " ++ city ++ S " and surrounding areas."]
  let parts :=
    if website ≠ [] ∨ phone ≠ [] then
      let contact := (if website ≠ [] then [S "visit our website"] else []) ++
        (if phone ≠ [] then [S "call us"] else [])
      parts ++ [S "To book an appointment, " ++ List.intercalate (S " or ") contact ++ S "."]
    else parts
  List.intercalate (S " ") parts

/-- The SEO-title generator (source lines 330-338).  `max_name_length` is a
Python `int` and can go negative, hence `Int` and Python slice semantics. -/
def mkSeoTitle (name category city : PyStr) : PyStr :=
  let seoTitle := category ++ S " in " ++ city ++ S " | " ++ name
  if seoTitle.length > 60 then
    let maxNameLength : Int := 60 - Int.ofNat (category ++ S " in " ++ city ++ S " | ").length
    let truncatedName :=
      if Int.ofNat name.length > maxNameLength then
        pyTakeInt name (maxNameLength - 3) ++ S "..."
      else name
    category ++ S " in " ++ city ++ S " | " ++ truncatedName
  else seoTitle

/-- Hard truncation of the SEO description (source lines 347-348). -/
def truncate155 (d : PyStr) : PyStr :=
  if d.length > 155 then d.take 152 ++ S "..." else d

/-- The SEO-description generator (source lines 340-350). -/
def mkSeoDescription (name category city : PyStr) (services : List PyStr) : PyStr :=
  let d := S "Professional " ++ pyLowerL category ++ S " services at " ++
    name ++ S " in " ++ city ++ S ". "
  let d :=
    match services with
    | [] => d
    | s0 :: _ => d ++ S "Specialising in " ++ pyLowerL s0 ++ S ". "
  truncate155 (d ++ S "Book your appointment today.")

/-- The tags generator (source lines 352-363): always rebuilt from scratch. -/
def mkTags (city category : PyStr) (services : List PyStr) : List PyStr :=
  [S "private"] ++
  (if city ≠ [] then [pyLowerL city] else []) ++
  (if category ≠ [] then [pyLowerL category] else []) ++
  (services.take 5).map (fun s => (pyLowerL s).map (fun c => if c == ' ' then '-' else c))

/-- `generate_seo_content` (source lines 299-365).  The three text outputs
are produced only when `name`, `category` and `city` are all non-empty
(the source checks the same three-way conjunction before each of them);
`tags` is always overwritten. -/
def generate_seo_content (record : Record) : Record :=
  let hasCore := record.name ≠ [] ∧ record.category ≠ [] ∧ record.city ≠ []
  { record with
    description :=
      if hasCore then
        mkDescription record.name record.category record.city record.services
          record.website record.phone
      else record.description
    seoTitle :=
      if hasCore then mkSeoTitle record.name record.category record.city
      else record.seoTitle
    seoDescription :=
      if hasCore then
        mkSeoDescription record.name record.category record.city record.services
      else record.seoDescription
    tags := mkTags record.city record.category record.services }

/-- Header normalisation of the loader (source line 41): lower-case and
space-to-underscore. -/
def normalizeKey (k : PyStr) : PyStr :=
  (pyLowerL k).map (fun c => if c == ' ' then '_' else c)

/-- Row normalisation of the loader (source lines 39-43). -/
def normalizeRow (row : List (PyStr × PyStr)) : RawRecord :=
  row.map (fun p => (normalizeKey p.1, pyStrip p.2))

/-- What `load_csv` does from the caller's point of view: either an
exception escapes it, or it returns a list of records. -/
inductive LoadOutcome where
  | raised (e : PyStr)
  | returned (records : List RawRecord)
deriving Repr, DecidableEq

/-- `load_csv` (source lines 31-47).  A missing file makes `open()` raise,
but the `except` clause catches every exception, prints, and the function
falls through to `return records` — so the caller always sees a normal
return, never an exception.  The input is `none` for a missing file and
`some rows` for a readable file (an empty file parses to zero rows). -/
def load_csv (file : Option (List (List (PyStr × PyStr)))) : LoadOutcome :=
  match file with
  | none => LoadOutcome.returned []
  | some rows => LoadOutcome.returned (rows.map normalizeRow)

/-- The value `process_records` hands back (source lines 367-409): either
the sentinel error dict or the processed record list. -/
inductive ProcessOutcome where
  | error (msg : PyStr)
  | ok (records : List Record)
deriving Repr, DecidableEq

/-- `process_records` (source lines 367-409), with the collaborators as
oracle parameters. -/
def process_records (apiKey : Option PyStr) (geo : PyStr → GeoOutcome)
    (web : PyStr → WebOutcome)
    (file : Option (List (List (PyStr × PyStr)))) : ProcessOutcome :=
  let raw := match load_csv file with
    | LoadOutcome.raised _ => []
    | LoadOutcome.returned rs => rs
  if raw = [] then ProcessOutcome.error (S "No records loaded")
  else
    let cleaned := raw.map (fun r => check_required_fields (clean_record r))
    let deduped := deduplicate_records cleaned
    let enriched := deduped.map (fun r =>
      if r.status ≠ S "MERGED_DUPLICATE" then
        check_website_availability web (enrich_with_geodata apiKey geo r)
      else r)
    let final := enriched.map (fun r =>
      if r.status = S "READY" ∨ r.status = S "NEEDS_REVIEW" then
        generate_seo_content r
      else r)
    ProcessOutcome.ok final

/-! ## Claims -/

/-- C9: for the input row
{name:"ABC CLINIC", category:"dental", phone:"07123456789",
website:"abcclinic.co.uk", city:"leeds", postcode:"ls1 1aa"},
`clean_record` keeps the all-caps name, maps the category to `Dentist`,
rewrites the phone to `+447123456789`, prefixes the website with `https://`
and leaves the status `READY`. -/
theorem C9_clean_record_scenario :
    (clean_record [(S "name", S "ABC CLINIC"), (S "category", S "dental"),
      (S "phone", S "07123456789"), (S "website", S "abcclinic.co.uk"),
      (S "city", S "leeds"), (S "postcode", S "ls1 1aa")]).name = S "ABC CLINIC" ∧
    (clean_record [(S "name", S "ABC CLINIC"), (S "category", S "dental"),
      (S "phone", S "07123456789"), (S "website", S "abcclinic.co.uk"),
      (S "city", S "leeds"), (S "postcode", S "ls1 1aa")]).category = S "Dentist" ∧
    (clean_record [(S "name", S "ABC CLINIC"), (S "category", S "dental"),
      (S "phone", S "07123456789"), (S "website", S "abcclinic.co.uk"),
      (S "city", S "leeds"), (S "postcode", S "ls1 1aa")]).phone = S "+447123456789" ∧
    (clean_record [(S "name", S "ABC CLINIC"), (S "category", S "dental"),
      (S "phone", S "07123456789"), (S "website", S "abcclinic.co.uk"),
      (S "city", S "leeds"), (S "postcode", S "ls1 1aa")]).website = S "https://abcclinic.co.uk" ∧
    (clean_record [(S "name", S "ABC CLINIC"), (S "category", S "dental"),
      (S "phone", S "07123456789"), (S "website", S "abcclinic.co.uk"),
      (S "city", S "leeds"), (S "postcode", S "ls1 1aa")]).status = S "READY" := by
  decide

/-- C4 counterexample: on a missing input file `load_csv` raises nothing —
the caller receives a normal return of an empty record list — and
`process_records` turns that into the ordinary return value
`{'error': 'No records loaded'}`; no `IOError`-class error propagates. -/
theorem C4_counterexample :
    load_csv none = LoadOutcome.returned [] ∧
    process_records none (fun _ => GeoOutcome.netError []) (fun _ => WebOutcome.exn)
      none = ProcessOutcome.error (S "No records loaded") := by
  exact ⟨rfl, rfl⟩

/-- C4 amended: when the input file is missing or empty, `load_csv` catches
the exception internally and returns an empty list (no error reaches the
caller), and `process_records` returns the sentinel error value
`No records loaded` without running any pipeline stage. -/
theorem C4_amended (apiKey : Option PyStr) (geo : PyStr → GeoOutcome)
    (web : PyStr → WebOutcome) :
    load_csv none = LoadOutcome.returned [] ∧
    process_records apiKey geo web none = ProcessOutcome.error (S "No records loaded") ∧
    process_records apiKey geo web (some []) = ProcessOutcome.error (S "No records loaded") := by
  exact ⟨rfl, rfl, rfl⟩

/-- C2 counterexample: a raw map whose category value is the empty string
(the same happens when the key is absent) is cleaned to an *empty* category,
which is not one of the five valid values. -/
theorem C2_counterexample :
    (clean_record [(S "name", S "Clinic"), (S "category", S "")]).category = [] ∧
    (clean_record [(S "name", S "Clinic"), (S "category", S "")]).category ∉ valid_categories ∧
    (clean_record [(S "name", S "Clinic")]).category = [] := by
  decide

/-- Category normalisation lands in the valid set for every input string. -/
theorem categoryClean_total (w : PyStr) : (categoryClean w).1 ∈ valid_categories := by
  simp only [categoryClean]
  split_ifs with h1 h2 h3 h4 h5
  · decide
  · decide
  · decide
  · decide
  · exact h5
  · show S "Other" ∈ valid_categories
    decide

/-- C2 amended: for every raw field map whose category value is present and
non-empty, the cleaned category is one of the five valid values; when the
key is absent or maps to the empty string the cleaned category is the empty
string (raw free text still never survives). -/
theorem C2_amended (raw : RawRecord) (v : PyStr)
    (h1 : rawGet raw (S "category") = some v) (h2 : v ≠ []) :
    (clean_record raw).category ∈ valid_categories := by
  have ht : rawTruthy raw (S "category") = true := by
    simp [rawTruthy, h1, h2]
  have hd : rawGetD raw (S "category") = v := by simp [rawGetD, h1]
  simp only [clean_record, ht, if_true]
  simpa [hd] using categoryClean_total v

/-- C2 amended, witness at a concrete free-text category. -/
theorem C2_amended_witness :
    rawGet [(S "category", S "weird cat")] (S "category") = some (S "weird cat") ∧
    (clean_record [(S "category", S "weird cat")]).category ∈ valid_categories :=
  ⟨by decide, C2_amended [(S "category", S "weird cat")] (S "weird cat")
    (by decide) (by decide)⟩

/-- C10: when any of name, category or city is empty, `generate_seo_content`
leaves description, seoTitle and seoDescription untouched, yet still
overwrites `tags` with a freshly built list (independent of the incoming
tags) that contains `private`. -/
theorem C10_seo_empty_fields (r : Record)
    (h : r.name = [] ∨ r.category = [] ∨ r.city = []) :
    (generate_seo_content r).description = r.description ∧
    (generate_seo_content r).seoTitle = r.seoTitle ∧
    (generate_seo_content r).seoDescription = r.seoDescription ∧
    (generate_seo_content r).tags = mkTags r.city r.category r.services ∧
    (∀ t : List PyStr, (generate_seo_content { r with tags := t }).tags =
      (generate_seo_content r).tags) ∧
    S "private" ∈ (generate_seo_content r).tags := by
  have hc : ¬ (r.name ≠ [] ∧ r.category ≠ [] ∧ r.city ≠ []) := by tauto
  refine ⟨?_, ?_, ?_, ?_, ?_, ?_⟩
  · simp [generate_seo_content, hc]
  · simp [generate_seo_content, hc]
  · simp [generate_seo_content, hc]
  · simp [generate_seo_content, hc]
  · intro t
    simp [generate_seo_content]
  · simp [generate_seo_content, hc, mkTags]

/-- A record with an empty city but stale SEO fields, for the C10 witness. -/
def noCityRecord : Record :=
  { emptyRecord with
    name := S "x", category := S "GP",
    description := S "old", tags := [S "stale"] }

/-- C10 witness: a record with an empty city. -/
theorem C10_seo_empty_fields_witness :
    (noCityRecord.name = [] ∨ noCityRecord.category = [] ∨ noCityRecord.city = []) ∧
    (generate_seo_content noCityRecord).description = S "old" :=
  ⟨Or.inr (Or.inr rfl), (C10_seo_empty_fields noCityRecord (Or.inr (Or.inr rfl))).1⟩

/-- C8: SEO synthesis is idempotent — a second application of
`generate_seo_content` reproduces the same description, seoTitle,
seoDescription and tags, because all four are derived only from fields the
function never writes. -/
theorem C8_seo_idempotent (r : Record) :
    (generate_seo_content (generate_seo_content r)).description =
      (generate_seo_content r).description ∧
    (generate_seo_content (generate_seo_content r)).seoTitle =
      (generate_seo_content r).seoTitle ∧
    (generate_seo_content (generate_seo_content r)).seoDescription =
      (generate_seo_content r).seoDescription ∧
    (generate_seo_content (generate_seo_content r)).tags =
      (generate_seo_content r).tags := by
  by_cases hc : r.name ≠ [] ∧ r.category ≠ [] ∧ r.city ≠ [] <;>
    simp [generate_seo_content, hc]

/-- Does some required check of `check_required_fields` fail? -/
def someCheckFails (r : Record) : Prop :=
  r.name = [] ∨ r.category = [] ∨ r.city = [] ∨
  (r.address = [] ∧ r.postcode = []) ∨ (r.website = [] ∧ r.phone = [])

instance (r : Record) : Decidable (someCheckFails r) := by
  unfold someCheckFails
  infer_instance

/-- The collected missing labels are empty exactly when every check passes. -/
theorem missingFields_nil_iff (r : Record) :
    missingFields r = [] ↔ ¬ someCheckFails r := by
  unfold missingFields someCheckFails
  split_ifs <;> simp_all

/-- C6: `check_required_fields` sets `BLOCKED_MISSING_DATA` and appends one
note listing all missing-field labels exactly when some required check
fails (empty name/category/city, both address and postcode empty, or both
website and phone empty), whatever the prior status; when every check
passes the record is returned unchanged. -/
theorem C6_required_fields (r : Record) :
    (someCheckFails r →
      (check_required_fields r).status = S "BLOCKED_MISSING_DATA" ∧
      (check_required_fields r).notes = r.notes ++ S "Missing required fields: " ++
        List.intercalate (S ", ") (missingFields r) ++ S ". ") ∧
    (¬ someCheckFails r → check_required_fields r = r) := by
  constructor
  · intro hf
    have hne : missingFields r ≠ [] := by
      intro h0
      exact (missingFields_nil_iff r).mp h0 hf
    simp [check_required_fields, hne]
  · intro hp
    have h0 : missingFields r = [] := (missingFields_nil_iff r).mpr hp
    simp [check_required_fields, h0]

/-- A record missing its city and both address and postcode, with a prior
`NEEDS_REVIEW` status, for the C6 witness. -/
def missingCityRecord : Record :=
  { emptyRecord with
    name := S "A", category := S "GP", phone := S "+441", status := S "NEEDS_REVIEW" }

/-- C6 witness: the missing-city scenario, overriding `NEEDS_REVIEW`. -/
theorem C6_required_fields_witness :
    someCheckFails missingCityRecord ∧
    (check_required_fields missingCityRecord).status = S "BLOCKED_MISSING_DATA" ∧
    (check_required_fields missingCityRecord).notes =
      missingCityRecord.notes ++ S "Missing required fields: " ++
        List.intercalate (S ", ") (missingFields missingCityRecord) ++ S ". " :=
  ⟨by decide, ((C6_required_fields missingCityRecord).1 (by decide)).1,
    ((C6_required_fields missingCityRecord).1 (by decide)).2⟩

/-- A failed reachability probe: an HTTP status of 400 or above, or a raised
request exception (source lines 288, 292). -/
def webFails : WebOutcome → Prop
  | WebOutcome.ok st => st ≥ 400
  | WebOutcome.exn => True

instance : (o : WebOutcome) → Decidable (webFails o)
  | WebOutcome.ok st => inferInstanceAs (Decidable (st ≥ 400))
  | WebOutcome.exn => Decidable.isTrue trivial

/-- C7: the reachability check never changes the status of a record that is
not `READY` (in particular a `BLOCKED_MISSING_DATA` record keeps its
status), and on a failed probe of a real website it appends a note and
downgrades to `NEEDS_REVIEW` exactly when the record was `READY`.  The
embedded function is total: no failure reaches the caller. -/
theorem C7_reachability (web : PyStr → WebOutcome) (r : Record) :
    (r.status ≠ S "READY" →
      (check_website_availability web r).status = r.status) ∧
    (r.status = S "BLOCKED_MISSING_DATA" →
      (check_website_availability web r).status = S "BLOCKED_MISSING_DATA") ∧
    (r.website ≠ [] → hasSub r.website (S ".example.com") = false →
      webFails (web r.website) →
      (∃ n : PyStr, n ≠ [] ∧ (check_website_availability web r).notes = r.notes ++ n) ∧
      (r.status = S "READY" →
        (check_website_availability web r).status = S "NEEDS_REVIEW")) := by
  refine ⟨?_, ?_, ?_⟩
  · intro hs
    unfold check_website_availability
    split_ifs <;> try rfl
    cases hw : web r.website with
    | ok st => simp [hw]; split_ifs <;> simp_all
    | exn => simp [hw]; split_ifs <;> simp_all
  · intro hb
    have hs : r.status ≠ S "READY" := by
      rw [hb]; decide
    unfold check_website_availability
    split_ifs <;> try exact hb
    cases hw : web r.website with
    | ok st => simp [hw]; split_ifs <;> simp_all
    | exn => simp [hw]; split_ifs <;> simp_all
  · intro hw hd hf
    cases hweb : web r.website with
    | ok st =>
      have hst : st ≥ 400 := by simpa [webFails, hweb] using hf
      constructor
      · refine ⟨S "Website unreachable. ", by decide, ?_⟩
        simp only [check_website_availability, hw, hd, hweb, if_neg, hst]
        split_ifs <;> simp_all
      · intro hr
        simp [check_website_availability, hw, hd, hweb, hst, hr]
    | exn =>
      constructor
      · refine ⟨S "Website check failed. ", by decide, ?_⟩
        simp only [check_website_availability, hw, hd, hweb, if_neg]
        split_ifs <;> simp_all
      · intro hr
        simp [check_website_availability, hw, hd, hweb, hr]

/-- A blocked record with an unreachable website, for the C7 witness. -/
def blockedRecord : Record :=
  { emptyRecord with
    name := S "A", website := S "https://a.co", status := S "BLOCKED_MISSING_DATA" }

/-- C7 witness: a server error leaves a blocked record blocked, and
downgrades the same record when `READY`. -/
theorem C7_reachability_witness :
    (check_website_availability (fun _ => WebOutcome.ok 500) blockedRecord).status =
      S "BLOCKED_MISSING_DATA" ∧
    (check_website_availability (fun _ => WebOutcome.ok 500)
      { blockedRecord with status := S "READY" }).status = S "NEEDS_REVIEW" :=
  ⟨(C7_reachability (fun _ => WebOutcome.ok 500) blockedRecord).2.1 rfl,
    (((C7_reachability (fun _ => WebOutcome.ok 500)
      { blockedRecord with status := S "READY" }).2.2 (by decide) (by decide)
      (by decide)).2 rfl)⟩

/-- The hard truncation of the SEO description always lands within 155
characters. -/
theorem truncate155_le (d : PyStr) : (truncate155 d).length ≤ 155 := by
  unfold truncate155
  split_ifs with h
  · have h3 : (S "...").length = 3 := rfl
    simp only [List.length_append, List.length_take, h3]
    omega
  · omega

/-- A non-negative Python slice takes at most `k` characters. -/
theorem pyTakeInt_len_le (s : PyStr) (k : Int) (hk : 0 ≤ k) :
    (pyTakeInt s k).length ≤ k.toNat := by
  simp only [pyTakeInt, if_pos hk, List.length_take]
  omega

/-- The generated SEO title fits in 60 characters whenever the fixed prefix
`"{category} in {city} | "` leaves at least the three characters of the
ellipsis, i.e. has length at most 57. -/
theorem mkSeoTitle_le (name category city : PyStr)
    (hp : category.length + city.length + 7 ≤ 57) :
    (mkSeoTitle name category city).length ≤ 60 := by
  have hA : (S " in ").length = 4 := rfl
  have hB : (S " | ").length = 3 := rfl
  have hC : (S "...").length = 3 := rfl
  simp only [mkSeoTitle]
  split_ifs with h1 h2
  · -- name is truncated to `60 - prefix - 3` characters plus the ellipsis
    have htk := pyTakeInt_len_le name
      (60 - Int.ofNat (category ++ S " in " ++ city ++ S " | ").length - 3)
      (by simp only [List.length_append, hA, hB, Int.ofNat_eq_coe]; omega)
    simp only [List.length_append, hA, hB, hC, Int.ofNat_eq_coe] at h1 h2 htk ⊢
    omega
  · -- the untruncated name already fits, contradicting the length overflow
    exfalso
    simp only [List.length_append, hA, hB, Int.ofNat_eq_coe] at h1 h2
    omega
  · -- the title was already within 60 characters
    simp only [List.length_append, hA, hB, Int.ofNat_eq_coe] at h1 ⊢
    omega

/-- C1 amended: for every record with non-empty name, category and city, the
generated seoDescription has length at most 155; and the generated seoTitle
has length at most 60 provided the fixed prefix `"{category} in {city} | "`
is at most 57 characters long (only the name is ever truncated, so an
oversized category or city defeats the bound). -/
theorem C1_amended (r : Record) (h1 : r.name ≠ []) (h2 : r.category ≠ [])
    (h3 : r.city ≠ []) :
    (generate_seo_content r).seoDescription.length ≤ 155 ∧
    (r.category.length + r.city.length + 7 ≤ 57 →
      (generate_seo_content r).seoTitle.length ≤ 60) := by
  have hc : r.name ≠ [] ∧ r.category ≠ [] ∧ r.city ≠ [] := ⟨h1, h2, h3⟩
  constructor
  · simp only [generate_seo_content, if_pos hc, mkSeoDescription]
    split <;> exact truncate155_le _
  · intro hp
    simp only [generate_seo_content, if_pos hc]
    exact mkSeoTitle_le r.name r.category r.city hp

/-- A record whose city is sixty characters long: the truncation step cannot
save the title because it only shortens the name. -/
def longCityRecord : Record :=
  { emptyRecord with
    name := S "A", category := S "GP",
    city := S "Xxxxxxxxxxxxxxxxxxxxxxxxxxxxxxxxxxxxxxxxxxxxxxxxxxxxxxxxxxx" }

set_option maxRecDepth 4000 in
/-- C1 counterexample: for a 59-character city the generated seoTitle is 71
characters long, exceeding the claimed 60-character bound. -/
theorem C1_counterexample :
    (generate_seo_content longCityRecord).seoTitle.length = 71 ∧
    ¬ (generate_seo_content longCityRecord).seoTitle.length ≤ 60 := by
  decide

/-- A record with a pathologically long name (100 characters), for the C1
witness: here the truncation does keep the title within 60 characters. -/
def longNameRecord : Record :=
  { emptyRecord with
    name := S "Nnnnnnnnnnnnnnnnnnnnnnnnnnnnnnnnnnnnnnnnnnnnnnnnnnnnnnnnnnnnnnnnnnnnnnnnnnnnnnnnnnnnnnnnnnnnnnnnnnnn",
    category := S "GP", city := S "Leeds" }

/-- C1 amended, witness at a 100-character name. -/
theorem C1_amended_witness :
    (generate_seo_content longNameRecord).seoDescription.length ≤ 155 ∧
    (generate_seo_content longNameRecord).seoTitle.length ≤ 60 :=
  ⟨(C1_amended longNameRecord (by decide) (by decide) (by decide)).1,
    (C1_amended longNameRecord (by decide) (by decide) (by decide)).2 (by decide)⟩

/-- First record of the C3 asymmetric pair.  Both postcodes share the
non-empty prefix `LS1 `; the websites are empty so only the name branch of
the duplicate test runs. -/
def asymRecordA : Record :=
  { emptyRecord with name := S "mmmmmmmmmmmmmxy1uv2pq", postcode := S "LS1 1AA" }

/-- Second record of the C3 asymmetric pair. -/
def asymRecordB : Record :=
  { emptyRecord with name := S "mmmmmmmmmmmmmuv3pq4xy", postcode := S "LS1 1AA" }

set_option maxRecDepth 20000 in
/-- C3 counterexample: `SequenceMatcher.ratio` depends on argument order
(its longest-match tie-breaking favours the first sequence), so with the
records above — identical non-empty postcode prefixes — B is classified a
duplicate of A (ratio 24/28 > 0.8) but A is not classified a duplicate of B
(ratio 22/28 < 0.8): the criterion is not symmetric. -/
theorem C3_counterexample :
    name_similarity_duplicate asymRecordB asymRecordA = true ∧
    name_similarity_duplicate asymRecordA asymRecordB = false ∧
    isDuplicate asymRecordB asymRecordA = true ∧
    isDuplicate asymRecordA asymRecordB = false := by
  decide

/-- C3 amended: the postcode-prefix component of the duplicate criterion is
symmetric, and the criterion as a whole is symmetric for records with equal
names; but it is not symmetric in general, because the similarity ratio of
`SequenceMatcher` depends on the order of its two arguments: some pair with
identical non-empty postcode prefixes is classified as duplicate in one
direction only. -/
theorem C3_amended :
    (∀ p q : PyStr, (p.take 4 == q.take 4 && p.take 4 != []) =
      (q.take 4 == p.take 4 && q.take 4 != [])) ∧
    (∀ A B : Record, A.name = B.name →
      name_similarity_duplicate A B = name_similarity_duplicate B A) ∧
    (∃ A B : Record, name_similarity_duplicate B A = true ∧
      name_similarity_duplicate A B = false) := by
  refine ⟨?_, ?_, ?_⟩
  · intro p q
    by_cases hpq : p.take 4 = q.take 4
    · rw [hpq]
    · have h1 : (p.take 4 == q.take 4) = false := by
        simpa [beq_iff_eq] using hpq
      have h2 : (q.take 4 == p.take 4) = false := by
        simpa [beq_iff_eq] using (Ne.symm hpq)
      rw [h1, h2]
      simp
  · intro A B h
    unfold name_similarity_duplicate
    rw [h]
    by_cases hpq : A.postcode.take 4 = B.postcode.take 4
    · rw [hpq]
    · have h1 : (A.postcode.take 4 == B.postcode.take 4) = false := by
        simpa [beq_iff_eq] using hpq
      have h2 : (B.postcode.take 4 == A.postcode.take 4) = false := by
        simpa [beq_iff_eq] using (Ne.symm hpq)
      rw [h1, h2]
      simp
  · exact ⟨asymRecordA, asymRecordB, C3_counterexample.1, C3_counterexample.2.1⟩

/-- C3 amended, witness: the symmetric clauses applied at concrete inputs. -/
theorem C3_amended_witness :
    ((S "LS1 1AA" : PyStr).take 4 == (S "M1 4BT" : PyStr).take 4 &&
      (S "LS1 1AA" : PyStr).take 4 != []) =
    ((S "M1 4BT" : PyStr).take 4 == (S "LS1 1AA" : PyStr).take 4 &&
      (S "M1 4BT" : PyStr).take 4 != []) ∧
    name_similarity_duplicate asymRecordA asymRecordA =
      name_similarity_duplicate asymRecordA asymRecordA :=
  ⟨C3_amended.1 (S "LS1 1AA") (S "M1 4BT"), C3_amended.2.1 asymRecordA asymRecordA rfl⟩

/-- C5: the duplicate-fold semantics of `deduplicate_records`.
(i)-(v): the per-type merge rule is first-non-empty-wins with base
priority — a falsy base field takes the duplicate's truthy value, a truthy
base field is never overwritten, a falsy duplicate value never overwrites;
(vi) `mergeInto` applies exactly that rule to every field of the schema;
(vii) a marked duplicate gets `status = MERGED_DUPLICATE` and one appended
note naming the record it was merged into, and every other field keeps its
original value; (viii) each duplicate is folded into the running base and
its note names that base as it stands right after the merge; (ix) every
marked duplicate is kept in the output of the dedup pass. -/
theorem C5_duplicate_fold :
    (∀ x y : PyStr, (x = [] → y ≠ [] → mergeStr x y = y) ∧
      (x ≠ [] → mergeStr x y = x) ∧ (y = [] → mergeStr x y = x)) ∧
    (∀ x y : List PyStr, (x = [] → y ≠ [] → mergeListS x y = y) ∧
      (x ≠ [] → mergeListS x y = x) ∧ (y = [] → mergeListS x y = x)) ∧
    (∀ x y : Nat, (x = 0 → y ≠ 0 → mergeNat x y = y) ∧
      (x ≠ 0 → mergeNat x y = x) ∧ (y = 0 → mergeNat x y = x)) ∧
    (∀ x y : Bool, (x = false → y = true → mergeBool x y = y) ∧
      (x = true → mergeBool x y = x) ∧ (y = false → mergeBool x y = x)) ∧
    (∀ x y : Option Int, (optFalsy x = true → optFalsy y = false → mergeOpt x y = y) ∧
      (optFalsy x = false → mergeOpt x y = x) ∧ (optFalsy y = true → mergeOpt x y = x)) ∧
    (∀ b d : Record, mergeInto b d =
      { name := mergeStr b.name d.name, category := mergeStr b.category d.category,
        city := mergeStr b.city d.city, address := mergeStr b.address d.address,
        postcode := mergeStr b.postcode d.postcode, phone := mergeStr b.phone d.phone,
        website := mergeStr b.website d.website,
        services := mergeListS b.services d.services,
        rating := mergeNat b.rating d.rating,
        reviewsCount := mergeNat b.reviewsCount d.reviewsCount,
        bookingLink := mergeStr b.bookingLink d.bookingLink,
        logoUrl := mergeStr b.logoUrl d.logoUrl,
        isClaimed := mergeBool b.isClaimed d.isClaimed,
        description := mergeStr b.description d.description,
        seoTitle := mergeStr b.seoTitle d.seoTitle,
        seoDescription := mergeStr b.seoDescription d.seoDescription,
        tags := mergeListS b.tags d.tags,
        latitude := mergeOpt b.latitude d.latitude,
        longitude := mergeOpt b.longitude d.longitude,
        status := mergeStr b.status d.status,
        notes := mergeStr b.notes d.notes }) ∧
    (∀ (nm : PyStr) (d : Record),
      (markMerged nm d).status = S "MERGED_DUPLICATE" ∧
      (markMerged nm d).notes = d.notes ++ S "Merged into record: " ++ nm ++ S ". " ∧
      (markMerged nm d).name = d.name ∧ (markMerged nm d).category = d.category ∧
      (markMerged nm d).city = d.city ∧ (markMerged nm d).address = d.address ∧
      (markMerged nm d).postcode = d.postcode ∧ (markMerged nm d).phone = d.phone ∧
      (markMerged nm d).website = d.website ∧ (markMerged nm d).services = d.services ∧
      (markMerged nm d).rating = d.rating ∧
      (markMerged nm d).reviewsCount = d.reviewsCount ∧
      (markMerged nm d).bookingLink = d.bookingLink ∧
      (markMerged nm d).logoUrl = d.logoUrl ∧
      (markMerged nm d).isClaimed = d.isClaimed ∧
      (markMerged nm d).description = d.description ∧
      (markMerged nm d).seoTitle = d.seoTitle ∧
      (markMerged nm d).seoDescription = d.seoDescription ∧
      (markMerged nm d).tags = d.tags ∧ (markMerged nm d).latitude = d.latitude ∧
      (markMerged nm d).longitude = d.longitude) ∧
    (∀ (b d : Record) (ds : List Record),
      foldDups b (d :: ds) =
        ((foldDups (mergeInto b d) ds).1,
          markMerged (mergeInto b d).name d :: (foldDups (mergeInto b d) ds).2)) ∧
    (∀ (recs : List Record) (fuel i : Nat) (merged : List Nat)
      (h : i < recs.length), merged.contains i = false →
      ∀ m, m ∈ (foldDups (recs.get ⟨i, h⟩)
          ((scanDups recs (recs.get ⟨i, h⟩) fuel (i + 1) merged).map Prod.snd)).2 →
        m ∈ dedupGo recs (fuel + 1) i merged) := by
  refine ⟨?_, ?_, ?_, ?_, ?_, ?_, ?_, ?_, ?_⟩
  · intro x y
    refine ⟨?_, ?_, ?_⟩ <;> intros <;> simp_all [mergeStr]
  · intro x y
    refine ⟨?_, ?_, ?_⟩ <;> intros <;> simp_all [mergeListS]
  · intro x y
    refine ⟨?_, ?_, ?_⟩ <;> intros <;> simp_all [mergeNat]
  · intro x y
    refine ⟨?_, ?_, ?_⟩ <;> intros <;> simp_all [mergeBool]
  · intro x y
    refine ⟨?_, ?_, ?_⟩ <;> intros <;> simp_all [mergeOpt]
  · intro b d
    rfl
  · intro nm d
    exact ⟨rfl, rfl, rfl, rfl, rfl, rfl, rfl, rfl, rfl, rfl, rfl, rfl, rfl, rfl,
      rfl, rfl, rfl, rfl, rfl, rfl, rfl⟩
  · intro b d ds
    rfl
  · intro recs fuel i merged h hm m hmem
    simp only [dedupGo, dif_pos h, hm, Bool.false_eq_true, if_false]
    exact List.mem_append_left _ hmem

/-- The base record of the C5 witness pair. -/
def mergeBaseRecord : Record :=
  { emptyRecord with name := S "Base Clinic", website := S "https://ex.co" }

/-- A website-domain duplicate of the base (same host, different case and
path), carrying a phone the base lacks. -/
def mergeDupRecord : Record :=
  { emptyRecord with
    name := S "Dup Clinic", website := S "https://EX.co/p", phone := S "+441" }

/-- The two-record input of the C5 witness. -/
def mergePairList : List Record := [mergeBaseRecord, mergeDupRecord]

/-- The marked duplicate the fold produces for that pair. -/
def mergeMarkedRecord : Record :=
  markMerged (mergeInto mergeBaseRecord mergeDupRecord).name mergeDupRecord

/-- C5 witness: the merge rule and the output membership at the concrete
pair. -/
theorem C5_duplicate_fold_witness :
    mergeStr [] (S "x") = S "x" ∧
    mergeMarkedRecord ∈ dedupGo mergePairList 2 0 [] :=
  ⟨(C5_duplicate_fold.1 [] (S "x")).1 rfl (by decide),
    C5_duplicate_fold.2.2.2.2.2.2.2.2 mergePairList 1 0 [] (by decide) rfl
      mergeMarkedRecord (by decide)⟩
